import Mathlib

/-!
Verification development for the `spectools_ir` utility module
(`src/spectools_ir/utils/utils.py`), centered on the spectral
resampling/convolution core (`spec_convol`, `spec_convol_R`) and the
molecule lookup tables.

Conventions of the shallow embedding:
* numpy float arrays become `List ℚ` (exact rational arithmetic; the
  claims under study are structural, not about rounding);
* a Python function that can raise becomes `Except PyErr _`, where
  `PyErr` distinguishes the observable outcomes (`ValueError`,
  `OverflowError`, `KeyError`, `NameError`, `sys.exit`); in particular
  the float-overflow path of the convolution core — zero minimum
  wavelength spacing sends `fwhm/dw_min` to `inf`/`nan` and
  `Gaussian1DKernel` then raises — is modelled by explicit error
  guards in `convol_core`, since `ℚ` has no infinities;
* the astropy call `Gaussian1DKernel(sigma)` is an external library
  producing an array of kernel weights; the pipeline is parameterized
  over that kernel-building function `g : ℚ → List ℚ`, exactly as the
  code treats it (the kernel array is built once and handed to
  `convolve_fft`);
* `convolve_fft(arr, kernel, normalize_kernel=True, boundary='fill')`
  is modelled by `convolve_fill`: direct discrete convolution with the
  normalized kernel, out-of-bounds samples read as the fill value 0.
-/

/-- Observable error outcomes of the Python code: a numpy/astropy
`ValueError`, an `OverflowError` (raised by `Gaussian1DKernel` when the
sampling factor has overflowed to `inf`), a dictionary `KeyError`, an
undefined-name `NameError`, and process termination through
`sys.exit code`. -/
inductive PyErr : Type where
  | valueError : PyErr
  | overflowError : PyErr
  | keyError : PyErr
  | nameError : PyErr
  | systemExit : Nat → PyErr
  deriving DecidableEq, Repr

/-- `np.min` of a list (the caller guards the empty case, where numpy
raises `ValueError`; on `[]` this total version returns `0`). -/
def listMin : List ℚ → ℚ
  | [] => 0
  | x :: xs => xs.foldl min x

/-- `np.roll(a, 1)`: rotate the array right by one position. -/
def roll1 (l : List ℚ) : List ℚ :=
  match l.getLast? with
  | none => []
  | some z => z :: l.dropLast

/-- `np.cumsum`: running sums, `cumsum [a,b,c] = [a, a+b, a+b+c]`. -/
def cumsum : List ℚ → List ℚ
  | [] => []
  | x :: xs => x :: (cumsum xs).map (fun y => x + y)

/-- One query point of `np.interp(x, xp, fp)`: clamp to `fp.head` /
`fp.getLast` outside the range of `xp`, linear interpolation on the
segment containing `x` otherwise (`xp` assumed increasing, as numpy
does). -/
def interpPoint : List ℚ → List ℚ → ℚ → ℚ
  | x0 :: x1 :: xs, f0 :: f1 :: fs, x =>
    if x ≤ x0 then f0
    else if x ≤ x1 then f0 + (f1 - f0) * (x - x0) / (x1 - x0)
    else interpPoint (x1 :: xs) (f1 :: fs) x
  | _ :: _, f0 :: _, _ => f0
  | _, _, _ => 0

/-- Read `arr[i]` with zero padding outside the bounds: the semantics
of `boundary='fill', fill_value=0` in `astropy.convolution`. -/
def getFill : List ℚ → ℤ → ℚ
  | [], _ => 0
  | x :: xs, i => if i < 0 then 0 else if i = 0 then x else getFill xs (i - 1)

/-- Read `arr[i]` with the index clamped to the array bounds: the
semantics of `boundary='extend'` in `astropy.convolution` (out-of-bounds
samples equal to the nearest edge value). -/
def getExtend : List ℚ → ℤ → ℚ
  | [], _ => 0
  | [x], _ => x
  | x :: y :: xs, i => if i ≤ 0 then x else getExtend (y :: xs) (i - 1)

/-- Dot product of the kernel weights against samples of `arr` read
through the boundary policy `edge`, the weight list starting at array
position `i`. -/
def kernelDot (edge : List ℚ → ℤ → ℚ) (arr : List ℚ) : List ℚ → ℤ → ℚ
  | [], _ => 0
  | w :: ws, i => w * edge arr i + kernelDot edge arr ws (i + 1)

/-- One output sample per element of the driver list `rest` (the tail
of `arr` still to be scanned), `i` being the current output index. -/
def convolveAux (edge : List ℚ → ℤ → ℚ) (knorm arr : List ℚ) :
    List ℚ → ℤ → List ℚ
  | [], _ => []
  | _ :: rest, i => kernelDot edge arr knorm (i - (knorm.length / 2 : ℕ)) ::
      convolveAux edge knorm arr rest (i + 1)

/-- Discrete convolution of `arr` with the kernel normalized to unit
sum, reading out-of-bounds samples through `edge`.  The kernel is
centred at `kernel.length / 2` (astropy kernels have odd length):
`out[i] = Σ_j knorm[j] * edge arr (i + j - center)`. -/
def convolveWith (edge : List ℚ → ℤ → ℚ) (kernel arr : List ℚ) : List ℚ :=
  convolveAux edge (kernel.map (fun w => w / kernel.sum)) arr arr 0

/-- `convolve_fft(arr, kernel, normalize_kernel=True, boundary='fill')`:
what the code actually calls (zero padding beyond the array ends). -/
def convolve_fill (kernel arr : List ℚ) : List ℚ :=
  convolveWith getFill kernel arr

/-- Modelled from the spec: the convolution step the spec (and the
code's own comment at `utils.py:445`) describes, with `boundary='extend'`
semantics — out-of-bounds samples equal to the nearest edge value. -/
def convolve_extend_spec (kernel arr : List ℚ) : List ℚ :=
  convolveWith getExtend kernel arr

/-! ## The convolution core (`utils.py:395-504`)

`spec_convol` and `spec_convol_R` share every line except the
computation of the per-point FWHM (`fwhm = wave / R`): a scalar `R`
derived from `dv` in the first, an array `R` in the second.  The shared
part is embedded once (`convol_core` plus one named definition per
intermediate variable of the source); each entry point supplies its
`fwhm` list exactly as its source lines do. -/

/-- `astropy.constants.c.value`: the speed of light in m/s. -/
def cval : ℚ := 299792458

/-- `dws = np.abs(wave - np.roll(wave, 1))` (`utils.py:416/472`). -/
def dws_of (wave : List ℚ) : List ℚ :=
  List.zipWith (fun a b => |a - b|) wave (roll1 wave)

/-- `dw_min = np.min(dws)` (`utils.py:417/473`). -/
def dw_min_of (wave : List ℚ) : ℚ := listMin (dws_of wave)

/-- Modelled from the spec: the clean minimum spacing the spec
recommends, over consecutive differences `|wave[i] - wave[i-1]|` for
`i = 1..n-1` only, omitting the wrap-around term `|wave[0] - wave[-1]|`
that `np.roll` introduces in `dws_of`. -/
def dw_min_spec (wave : List ℚ) : ℚ :=
  listMin (List.zipWith (fun a b => |a - b|) wave.tail wave)

/-- `np.min(fwhm / dw_min)`: the pre-clamp sampling factor
(`utils.py:424/480`). -/
def fwhm_s_pre (wave fwhm : List ℚ) : ℚ :=
  listMin (fwhm.map (fun f => f / dw_min_of wave))

/-- `fwhm_s = np.max([2., fwhm_s])`: the clamped sampling factor
(`utils.py:427/483`). -/
def fwhm_s_of (wave fwhm : List ℚ) : ℚ := max 2 (fwhm_s_pre wave fwhm)

/-- `ds = fwhm / fwhm_s` (`utils.py:430/486`). -/
def ds_of (wave fwhm : List ℚ) : List ℚ :=
  fwhm.map (fun f => f / fwhm_s_of wave fwhm)

/-- `wave_constfwhm = np.cumsum(ds) + np.min(wave)` (`utils.py:432/488`). -/
def wave_constfwhm_of (wave fwhm : List ℚ) : List ℚ :=
  (cumsum (ds_of wave fwhm)).map (fun y => y + listMin wave)

/-- `flux_constfwhm = np.interp(wave_constfwhm, wave, flux)`
(`utils.py:435/490`). -/
def flux_constfwhm_of (wave flux fwhm : List ℚ) : List ℚ :=
  (wave_constfwhm_of wave fwhm).map (interpPoint wave flux)

/-- `sigma_s = fwhm_s / 2.3548` (`utils.py:438/493`). -/
def sigma_s_of (wave fwhm : List ℚ) : ℚ := fwhm_s_of wave fwhm / 2.3548

/-- `flux_conv = convolve_fft(flux_constfwhm, g, normalize_kernel=True,
boundary='fill')` (`utils.py:447/501`), `g = Gaussian1DKernel(sigma_s)`
modelled by the kernel-building parameter. -/
def flux_conv_of (g : ℚ → List ℚ) (wave flux fwhm : List ℚ) : List ℚ :=
  convolve_fill (g (sigma_s_of wave fwhm)) (flux_constfwhm_of wave flux fwhm)

/-- `flux_oldsampling = np.interp(wave, wave_constfwhm, flux_conv)`
(`utils.py:448/502`). -/
def flux_oldsampling_of (g : ℚ → List ℚ) (wave flux fwhm : List ℚ) : List ℚ :=
  wave.map (interpPoint (wave_constfwhm_of wave fwhm) (flux_conv_of g wave flux fwhm))

/-- Lines `utils.py:415-450` = `utils.py:471-504`: everything after the
FWHM computation.  The code itself performs no validation; the error
exits below are the ones the numpy/astropy calls actually raise, in
execution order:

* `np.min(dws)` (`utils.py:417`) raises `ValueError` when `wave` is
  empty;
* `np.min(fwhm / dw_min)` (`utils.py:424`) raises `ValueError` when
  `fwhm` is empty;
* `np.interp(wave_constfwhm, wave, flux)` (`utils.py:435`) raises
  `ValueError` when `len(wave) != len(flux)`;
* `Gaussian1DKernel(sigma_s)` (`utils.py:441`) raises when `sigma_s`
  is not finite.  With `dw_min = 0`, float semantics give
  `fwhm[i]/0 = nan/±inf` (by the sign of `fwhm[i]`), `np.min`
  propagates `nan` and otherwise picks `-inf` over `+inf`, and
  `np.max([2., x])` propagates `nan`/`+inf` but clamps `-inf` to `2`.
  So `sigma_s` is `nan` (a `ValueError` from the kernel size
  conversion) iff `dw_min = 0` and some `fwhm[i] = 0`, and `+inf` (an
  `OverflowError`) iff `dw_min = 0` and every `fwhm[i] > 0`; with
  `dw_min = 0` and a negative `fwhm` entry the float pipeline clamps to
  `fwhm_s = 2` and proceeds, exactly as the rational model does.

On the surviving path the rational pipeline matches the float one
symbolically (`fwhm_s_pre`'s `f/0 = 0` convention only ever feeds the
clamped `fwhm_s = 2` branch). -/
def convol_core (g : ℚ → List ℚ) (wave flux fwhm : List ℚ) :
    Except PyErr (List ℚ) :=
  if wave = [] then .error .valueError
  else if fwhm = [] then .error .valueError
  else if flux.length ≠ wave.length then .error .valueError
  else if dw_min_of wave = 0 ∧ ∃ f ∈ fwhm, f = 0 then .error .valueError
  else if dw_min_of wave = 0 ∧ ∀ f ∈ fwhm, 0 < f then .error .overflowError
  else .ok (flux_oldsampling_of g wave flux fwhm)

/-- `spec_convol(wave, flux, dv)` (`utils.py:395-450`):
`R = c.value/(dv*1e3)`, then `fwhm = wave / R` with the scalar `R`. -/
def spec_convol (g : ℚ → List ℚ) (wave flux : List ℚ) (dv : ℚ) :
    Except PyErr (List ℚ) :=
  convol_core g wave flux (wave.map (fun w => w / (cval / (dv * 1000))))

/-- `spec_convol_R(wave, flux, R)` (`utils.py:452-504`) with a
resolving-power array: `fwhm = wave / R` elementwise.  numpy broadcasts
a length-1 `R` against every wavelength and raises a broadcast
`ValueError` when the lengths otherwise differ. -/
def spec_convol_R (g : ℚ → List ℚ) (wave flux R : List ℚ) :
    Except PyErr (List ℚ) :=
  match R with
  | [r] => convol_core g wave flux (wave.map (fun w => w / r))
  | _ =>
    if R.length ≠ wave.length then .error .valueError
    else convol_core g wave flux (List.zipWith (fun w r => w / r) wave R)

/-! ## Lookup tables and table-driven functions -/

/-- The dictionary `trans` of `get_global_identifier` (`utils.py:257-306`):
molecule-name `_` isotopologue-number code to HITRAN global identifier. -/
def globalTrans : List (String × Nat) := [
  ("H2O_1", 1), ("H2O_2", 2), ("H2O_3", 3), ("H2O_4", 4),
  ("H2O_5", 5), ("H2O_6", 6), ("H2O_7", 129), ("CO2_1", 7),
  ("CO2_2", 8), ("CO2_3", 9), ("CO2_4", 10), ("CO2_5", 11),
  ("CO2_6", 12), ("CO2_7", 13), ("CO2_8", 14), ("CO2_9", 121),
  ("CO2_10", 15), ("CO2_11", 120), ("CO2_12", 122), ("O3_1", 16),
  ("O3_2", 17), ("O3_3", 18), ("O3_4", 19), ("O3_5", 20),
  ("N2O_1", 21), ("N2O_2", 22), ("N2O_3", 23), ("N2O_4", 24),
  ("N2O_5", 25), ("CO_1", 26), ("CO_2", 27), ("CO_3", 28),
  ("CO_4", 29), ("CO_5", 30), ("CO_6", 31), ("CH4_1", 32),
  ("CH4_2", 33), ("CH4_3", 34), ("CH4_4", 35), ("O2_1", 36),
  ("O2_2", 37), ("O2_3", 38), ("NO_1", 39), ("NO_2", 40),
  ("NO_3", 41), ("SO2_1", 42), ("SO2_2", 43), ("NO2_1", 44),
  ("NH3_1", 45), ("NH3_2", 46), ("HNO3_1", 47), ("HNO3_2", 117),
  ("OH_1", 48), ("OH_2", 49), ("OH_3", 50), ("HF_1", 51),
  ("HF_2", 110), ("HCl_1", 52), ("HCl_2", 53), ("HCl_3", 107),
  ("HCl_4", 108), ("HBr_1", 54), ("HBr_2", 55), ("HBr_3", 111),
  ("HBr_4", 112), ("HI_1", 56), ("HI_2", 113), ("ClO_1", 57),
  ("ClO_2", 58), ("OCS_1", 59), ("OCS_2", 60), ("OCS_3", 61),
  ("OCS_4", 62), ("OCS_5", 63), ("H2CO_1", 64), ("H2CO_2", 65),
  ("H2CO_3", 66), ("HOCl_1", 67), ("HOCl_2", 68), ("N2_1", 69),
  ("N2_2", 118), ("HCN_1", 70), ("HCN_2", 71), ("HCN_3", 72),
  ("CH3Cl_1", 73), ("CH3CL_2", 74), ("H2O2_1", 75), ("C2H2_1", 76),
  ("C2H2_2", 77), ("C2H2_3", 105), ("C2H6_1", 78), ("C2H6_2", 106),
  ("PH3_1", 79), ("COF2_1", 80), ("COF2_2", 119), ("SF6_1", 126),
  ("H2S_1", 81), ("H2S_2", 82), ("H2S_3", 83), ("HCOOH_1", 84),
  ("HO2_1", 85), ("O_1", 86), ("ClONO2_1", 127), ("ClONO2_2", 128),
  ("NO+_1", 87), ("HOBr_1", 88), ("HOBr_2", 89), ("C2H4_1", 90),
  ("C2H4_2", 91), ("CH3OH_1", 92), ("CH3Br_1", 93), ("CH3Br_2", 94),
  ("CH3CN_1", 95), ("CF4_1", 96), ("C4H2_1", 116), ("HC3N_1", 109),
  ("H2_1", 103), ("H2_2", 115), ("CS_1", 97), ("CS_2", 98),
  ("CS_3", 99), ("CS_4", 100), ("SO3_1", 114), ("C2N2_1", 123),
  ("COCl2_1", 124), ("COCl2_2", 125), ("SiO_1", 200), ("C6H6_1", 300),
  ("CH3+_1", 400), ("C3H4_1", 500)]


/-- The dictionary `trans` of `get_molecule_identifier` /
`translate_molecule_identifier` (`utils.py:333-338` and `utils.py:358-363`):
HITRAN molecule identifier (as a decimal string) to molecular formula. -/
def molecNumToName : List (String × String) := [
  ("1", "H2O"), ("2", "CO2"), ("3", "O3"), ("4", "N2O"),
  ("5", "CO"), ("6", "CH4"), ("7", "O2"), ("8", "NO"),
  ("9", "SO2"), ("10", "NO2"), ("11", "NH3"), ("12", "HNO3"),
  ("13", "OH"), ("14", "HF"), ("15", "HCl"), ("16", "HBr"),
  ("17", "HI"), ("18", "ClO"), ("19", "OCS"), ("20", "H2CO"),
  ("21", "HOCl"), ("22", "N2"), ("23", "HCN"), ("24", "CH3Cl"),
  ("25", "H2O2"), ("26", "C2H2"), ("27", "C2H6"), ("28", "PH3"),
  ("29", "COF2"), ("30", "SF6"), ("31", "H2S"), ("32", "HCOOH"),
  ("33", "HO2"), ("34", "O"), ("35", "ClONO2"), ("36", "NO+"),
  ("37", "HOBr"), ("38", "C2H4"), ("39", "CH3OH"), ("40", "CH3Br"),
  ("41", "CH3CN"), ("42", "CF4"), ("43", "C4H2"), ("44", "HC3N"),
  ("45", "H2"), ("46", "CS"), ("47", "SO3")]


/-- The dictionary `mass` of `get_molmass` (`utils.py:532-585`):
molecule `_` isotopologue code to molecular mass in amu (decimal
literals read exactly, as rationals). -/
def massTable : List (String × ℚ) := [
  ("H2O_1", 18.010565), ("H2O_2", 20.014811), ("H2O_3", 19.01478),
  ("H2O_4", 19.01674), ("H2O_5", 21.020985), ("H2O_6", 20.020956),
  ("H2O_7", 20.022915), ("CO2_1", 43.98983), ("CO2_2", 44.993185),
  ("CO2_3", 45.994076), ("CO2_4", 44.994045), ("CO2_5", 46.997431),
  ("CO2_6", 45.9974), ("CO2_7", 47.998322), ("CO2_8", 46.998291),
  ("CO2_9", 45.998262), ("CO2_10", 49.001675), ("CO2_11", 48.001646),
  ("CO2_12", 47.0016182378), ("O3_1", 47.984745), ("O3_2", 49.988991),
  ("O3_3", 49.988991), ("O3_4", 48.98896), ("O3_5", 48.98896),
  ("N2O_1", 44.001062), ("N2O_2", 44.998096), ("N2O_3", 44.998096),
  ("N2O_4", 46.005308), ("N2O_5", 45.005278), ("CO_1", 27.994915),
  ("CO_2", 28.99827), ("CO_3", 29.999161), ("CO_4", 28.99913),
  ("CO_5", 31.002516), ("CO_6", 30.002485), ("CH4_1", 16.0313),
  ("CH4_2", 17.034655), ("CH4_3", 17.037475), ("CH4_4", 18.04083),
  ("O2_1", 31.98983), ("O2_2", 33.994076), ("O2_3", 32.994045),
  ("NO_1", 29.997989), ("NO_2", 30.995023), ("NO_3", 32.002234),
  ("SO2_1", 63.961901), ("SO2_2", 65.957695), ("NO2_1", 45.992904),
  ("NO2_2", 46.989938), ("NH3_1", 17.026549), ("NH3_2", 18.023583),
  ("HNO3_1", 62.995644), ("HNO3_2", 63.99268), ("OH_1", 17.00274),
  ("OH_2", 19.006986), ("OH_3", 18.008915), ("HF_1", 20.006229),
  ("HF_2", 21.012404), ("HCl_1", 35.976678), ("HCl_2", 37.973729),
  ("HCl_3", 36.982853), ("HCl_4", 38.979904), ("HBr_1", 79.92616),
  ("HBr_2", 81.924115), ("HBr_3", 80.932336), ("HBr_4", 82.930289),
  ("HI_1", 127.912297), ("HI_2", 128.918472), ("ClO_1", 50.963768),
  ("ClO_2", 52.960819), ("OCS_1", 59.966986), ("OCS_2", 61.96278),
  ("OCS_3", 60.970341), ("OCS_4", 60.966371), ("OCS_5", 61.971231),
  ("OCS_6", 62.966136), ("H2CO_1", 30.010565), ("H2CO_2", 31.01392),
  ("H2CO_3", 32.014811), ("HOCl_1", 51.971593), ("HOCl_2", 53.968644),
  ("N2_1", 28.006148), ("N2_2", 29.003182), ("HCN_1", 27.010899),
  ("HCN_2", 28.014254), ("HCN_3", 28.007933), ("CH3Cl_1", 49.992328),
  ("CH3CL_2", 51.989379), ("H2O2_1", 34.00548), ("C2H2_1", 26.01565),
  ("C2H2_2", 27.019005), ("C2H2_3", 27.021825), ("C2H6_1", 30.04695),
  ("C2H6_2", 31.050305), ("PH3_1", 33.997238), ("COF2_1", 65.991722),
  ("COF2_2", 66.995083), ("SF6_1", 145.962492), ("H2S_1", 33.987721),
  ("H2S_2", 35.983515), ("H2S_3", 34.987105), ("HCOOH_1", 46.00548),
  ("HO2_1", 32.997655), ("O_1", 15.994915), ("ClONO2_1", 96.956672),
  ("ClONO2_2", 98.953723), ("NO+_1", 29.997989), ("HOBr_1", 95.921076),
  ("HOBr_2", 97.919027), ("C2H4_1", 28.0313), ("C2H4_2", 29.034655),
  ("CH3OH_1", 32.026215), ("CH3Br_1", 93.941811), ("CH3Br_2", 95.939764),
  ("CH3CN_1", 41.026549), ("CF4_1", 87.993616), ("C4H2_1", 50.01565),
  ("HC3N_1", 51.010899), ("H2_1", 2.01565), ("H2_2", 3.021825),
  ("CS_1", 43.971036), ("CS_2", 45.966787), ("CS_3", 44.974368),
  ("CS_4", 44.970399), ("SO3_1", 79.95682), ("C2N2_1", 52.006148),
  ("COCl2_1", 97.9326199796), ("COCl2_2", 99.9296698896), ("CS2_1", 75.94414),
  ("CS2_2", 77.93994), ("CS2_3", 76.943256), ("CS2_4", 76.947495),
  ("SiO_1", 44.0845), ("C6H6_1", 78.1118), ("CH3+_1", 15.0340),
  ("C3H4_1", 40.06)]


/-- The dictionary `w0` of `get_miri_mrs_wavelengths` (`utils.py:691-704`). -/
def miri_w0 : List (String × ℚ) := [
  ("1A", 4.87), ("1B", 5.62), ("1C", 6.49), ("2A", 7.45),
  ("2B", 8.61), ("2C", 9.91), ("3A", 11.47), ("3B", 13.25),
  ("3C", 15.3), ("4A", 17.54), ("4B", 20.44), ("4C", 23.84)]


/-- The dictionary `w1` of `get_miri_mrs_wavelengths` (`utils.py:705-718`). -/
def miri_w1 : List (String × ℚ) := [
  ("1A", 5.82), ("1B", 6.73), ("1C", 7.76), ("2A", 8.9),
  ("2B", 10.28), ("2C", 11.87), ("3A", 13.67), ("3B", 15.8),
  ("3C", 18.24), ("4A", 21.1), ("4B", 24.72), ("4C", 28.82)]

/-- `get_global_identifier(molecule_name, isotopologue_number)`
(`utils.py:237-314`): dictionary lookup of `name + '_' + str(iso)`;
on a missing key the code catches the `KeyError`, prints a message and
re-raises `KeyError`, so the caller observes a `KeyError` either way. -/
def get_global_identifier (molecule_name : String) (isotopologue_number : Nat) :
    Except PyErr Nat :=
  match globalTrans.lookup (molecule_name ++ "_" ++ toString isotopologue_number) with
  | some v => Except.ok v
  | none => Except.error PyErr.keyError

/-- Python `int(...)` on a decimal-digit string, as applied to the keys
`'1'..'47'` of the dictionary. -/
def digitsToNat (acc : Nat) : List Char → Nat
  | [] => acc
  | c :: cs => digitsToNat (acc * 10 + (c.toNat - 48)) cs

/-- `get_molecule_identifier(molecule_name)` (`utils.py:343-367`): the
numeric-string-to-name dictionary is inverted, indexed by the molecule
name (raising `KeyError` on a miss) and the numeric string converted
with `int(...)`. -/
def get_molecule_identifier (molecule_name : String) : Except PyErr Nat :=
  match (molecNumToName.map (fun p => (p.2, p.1))).lookup molecule_name with
  | some k => Except.ok (digitsToNat 0 k.data)
  | none => Except.error PyErr.keyError

/-- `get_molmass(molecule_name, isotopologue_number)` (`utils.py:507-587`):
plain dictionary access `mass[mol_isot_code]`, raising `KeyError` on a
missing key. -/
def get_molmass (molecule_name : String) (isotopologue_number : Nat) :
    Except PyErr ℚ :=
  match massTable.lookup (molecule_name ++ "_" ++ toString isotopologue_number) with
  | some v => Except.ok v
  | none => Except.error PyErr.keyError

/-- `get_miri_mrs_wavelengths(subband)` (`utils.py:690-724`): on an
unknown subband the code catches the `KeyError`, prints a message and
calls `sys.exit(1)` — the caller observes process termination, not a
`LookupError`. -/
def get_miri_mrs_wavelengths (subband : String) : Except PyErr (ℚ × ℚ) :=
  match miri_w0.lookup subband with
  | none => Except.error (PyErr.systemExit 1)
  | some a => Except.ok (a, (miri_w1.lookup subband).getD 0)

/-- `extract_hitran_ch3p(filename, wavemin, wavemax)` (`utils.py:934-962`),
modelled on the `wave` column of the parsed table (the derived columns
`wn`, `elower`, `eup_k` computed before the filter touch neither the
filter variables nor the control flow).  `waveminbool` / `wavemaxbool`
are local names assigned only inside the `if wavemin is not None` /
`if wavemax is not None` branches; the unconditional use
`extractbool = (waveminbool & wavemaxbool)` raises `NameError` whenever
either assignment did not run. -/
def extract_hitran_ch3p (table : List ℚ) (wavemin wavemax : Option ℚ) :
    Except PyErr (List ℚ) :=
  let waveminbool : Option (List Bool) :=
    wavemin.map (fun wm => table.map (fun w => decide (wm < w)))
  let wavemaxbool : Option (List Bool) :=
    wavemax.map (fun wM => table.map (fun w => decide (w < wM)))
  match waveminbool, wavemaxbool with
  | some a, some b =>
      Except.ok (((table.zip (a.zip b)).filter (fun p => p.2.1 && p.2.2)).map
        (fun p => p.1))
  | _, _ => Except.error PyErr.nameError

/-! ## Concrete kernel stand-ins

The boundary-policy and shape claims do not depend on the exact
Gaussian weights `Gaussian1DKernel` produces, only on the kernel being
normalized-on-use with some mass away from the centre.  Two concrete
stand-ins serve for evaluations: a 1-tap identity kernel and a
normalized 3-tap kernel. -/

def gauss1 : ℚ → List ℚ := fun _ => [1]

def gauss3 : ℚ → List ℚ := fun _ => [1/4, 1/2, 1/4]

/-! Evaluation checks of the basic numpy/astropy models on small inputs. -/
example : cumsum [1, 2, 3] = [1, 3, 6] := by norm_num [cumsum]
example : roll1 [1, 2, 3] = [3, 1, 2] := by norm_num [roll1]
example : listMin [3, 1, 2] = 1 := by norm_num [listMin]
example : interpPoint [1, 2] [10, 20] (3/2) = 15 := by norm_num [interpPoint]
example : interpPoint [1, 2] [10, 20] 0 = 10 := by norm_num [interpPoint]
example : interpPoint [1, 2] [10, 20] 7 = 20 := by norm_num [interpPoint]
example : convolve_fill [1/4, 1/2, 1/4] [1, 1, 1, 1] = [3/4, 1, 1, 3/4] := by
  norm_num [convolve_fill, convolveWith, convolveAux, kernelDot, getFill]
example : convolve_extend_spec [1/4, 1/2, 1/4] [1, 1, 1, 1] = [1, 1, 1, 1] := by
  norm_num [convolve_extend_spec, convolveWith, convolveAux, kernelDot, getExtend]

lemma foldl_min_le_init (a : ℚ) (l : List ℚ) : l.foldl min a ≤ a := by
  induction l generalizing a with
  | nil => exact le_refl a
  | cons x xs ih => exact le_trans (ih (min a x)) (min_le_left a x)

lemma foldl_min_le_mem (a : ℚ) (l : List ℚ) (y : ℚ) (hy : y ∈ l) :
    l.foldl min a ≤ y := by
  induction l generalizing a with
  | nil => cases hy
  | cons x xs ih =>
    rcases List.mem_cons.mp hy with h | h
    · subst h
      exact le_trans (foldl_min_le_init (min a y) xs) (min_le_right a y)
    · exact ih (min a x) h

lemma foldl_min_cases (a : ℚ) (l : List ℚ) :
    l.foldl min a = a ∨ l.foldl min a ∈ l := by
  induction l generalizing a with
  | nil => exact Or.inl rfl
  | cons x xs ih =>
    rcases ih (min a x) with h | h
    · rcases min_choice a x with hax | hax
      · exact Or.inl (by rw [List.foldl_cons, h, hax])
      · refine Or.inr ?_
        rw [List.foldl_cons, h, hax]
        exact List.mem_cons_self x xs
    · exact Or.inr (List.mem_cons_of_mem x h)

lemma listMin_le_mem (l : List ℚ) (y : ℚ) (hy : y ∈ l) : listMin l ≤ y := by
  cases l with
  | nil => cases hy
  | cons x xs =>
    rcases List.mem_cons.mp hy with h | h
    · subst h
      exact foldl_min_le_init y xs
    · exact foldl_min_le_mem x xs y h

lemma listMin_mem (l : List ℚ) (hl : l ≠ []) : listMin l ∈ l := by
  cases l with
  | nil => exact absurd rfl hl
  | cons x xs =>
    show xs.foldl min x ∈ x :: xs
    rcases foldl_min_cases x xs with h | h
    · rw [h]
      exact List.mem_cons_self x xs
    · exact List.mem_cons_of_mem x h

lemma zipWith_dropLast (f : ℚ → ℚ → ℚ) (xs : List ℚ) :
    ∀ ys : List ℚ, xs.length < ys.length →
      List.zipWith f xs ys.dropLast = List.zipWith f xs ys := by
  induction xs with
  | nil =>
    intro ys h
    simp
  | cons x xs' ih =>
    intro ys h
    match ys with
    | [] => simp at h
    | [y] =>
      simp only [List.length_cons, List.length_nil] at h
      omega
    | y :: z :: t =>
      have hlen : xs'.length < (z :: t).length := Nat.lt_of_succ_lt_succ h
      show List.zipWith f (x :: xs') (y :: (z :: t).dropLast) =
        List.zipWith f (x :: xs') (y :: z :: t)
      simp only [List.zipWith_cons_cons, ih (z :: t) hlen]

lemma dws_of_cons (w : ℚ) (ws : List ℚ) (hws : ws ≠ []) :
    dws_of (w :: ws) =
      |w - (w :: ws).getLast (List.cons_ne_nil w ws)| ::
        List.zipWith (fun a b => |a - b|) ws (w :: ws) := by
  have h1 : roll1 (w :: ws) =
      (w :: ws).getLast (List.cons_ne_nil w ws) :: (w :: ws).dropLast := by
    unfold roll1
    rw [List.getLast?_eq_getLast (w :: ws) (List.cons_ne_nil w ws)]
  rw [dws_of, h1, List.zipWith_cons_cons,
    zipWith_dropLast _ ws (w :: ws) (by simp)]

lemma listMin_pos (l : List ℚ) (hl : l ≠ []) (hpos : ∀ y ∈ l, 0 < y) :
    0 < listMin l :=
  hpos _ (listMin_mem l hl)

lemma consec_diffs_pos (l : List ℚ) (hc : List.Chain' (fun a b => a < b) l) :
    ∀ y ∈ List.zipWith (fun a b => |a - b|) l.tail l, 0 < y := by
  induction l with
  | nil =>
    intro y hy
    simp at hy
  | cons a t ih =>
    cases t with
    | nil =>
      intro y hy
      simp at hy
    | cons b t' =>
      intro y hy
      rw [List.tail_cons, List.zipWith_cons_cons] at hy
      rcases List.mem_cons.mp hy with h | h
      · rw [h]
        exact abs_pos.mpr (sub_ne_zero.mpr (ne_of_gt (List.chain'_cons.mp hc).1))
      · exact ih (List.chain'_cons.mp hc).2 y h

lemma dw_min_of_pos (wave : List ℚ) (h2 : 2 ≤ wave.length)
    (hmono : List.Chain' (fun a b => a < b) wave) : 0 < dw_min_of wave := by
  match wave, h2 with
  | w :: w1 :: rest, _ =>
    have hpw : List.Pairwise (fun a b => a < b) (w :: w1 :: rest) :=
      List.chain'_iff_pairwise.mp hmono
    have hne : (w1 :: rest) ≠ [] := List.cons_ne_nil w1 rest
    have hzmem : (w :: w1 :: rest).getLast (List.cons_ne_nil w (w1 :: rest)) ∈
        w1 :: rest := by
      rw [List.getLast_cons hne]
      exact List.getLast_mem hne
    have hwz : w < (w :: w1 :: rest).getLast (List.cons_ne_nil w (w1 :: rest)) :=
      List.rel_of_pairwise_cons hpw hzmem
    rw [dw_min_of, dws_of_cons w (w1 :: rest) hne]
    apply listMin_pos _ (List.cons_ne_nil _ _)
    intro y hy
    rcases List.mem_cons.mp hy with h | h
    · rw [h]
      exact abs_pos.mpr (sub_ne_zero.mpr (ne_of_lt hwz))
    · exact consec_diffs_pos (w :: w1 :: rest) hmono y h

/-! ## Theorems -/

/-- C3: the global sampling factor is clamped to a floor of 2.0:
`fwhm_s = max(2, min_i(fwhm[i]/dw_min))`, the clamped value is never
below 2, it divides `fwhm` to give `ds`, and whenever the pre-clamp
minimum sampling density is already `≥ 2` the clamp has no effect (the
actual worst-case point density is used unchanged). -/
theorem fwhm_s_clamped (wave fwhm : List ℚ) :
    fwhm_s_of wave fwhm =
      max 2 (listMin (fwhm.map (fun f => f / dw_min_of wave))) ∧
    2 ≤ fwhm_s_of wave fwhm ∧
    ds_of wave fwhm = fwhm.map (fun f => f / fwhm_s_of wave fwhm) ∧
    (2 ≤ fwhm_s_pre wave fwhm → fwhm_s_of wave fwhm = fwhm_s_pre wave fwhm) := by
  refine ⟨rfl, le_max_left _ _, rfl, fun h => max_eq_right h⟩

/-- Witness for `fwhm_s_clamped` at `wave = [1,2]`, `fwhm = [4,5]`
(there `dw_min = 1` and the pre-clamp factor is `4 ≥ 2`). -/
theorem fwhm_s_clamped_witness :
    2 ≤ fwhm_s_pre [1, 2] [4, 5] ∧
    fwhm_s_of [1, 2] [4, 5] = fwhm_s_pre [1, 2] [4, 5] := by
  have h : 2 ≤ fwhm_s_pre [1, 2] [4, 5] := by
    norm_num [fwhm_s_pre, dw_min_of, dws_of, roll1, listMin]
  exact ⟨h, (fwhm_s_clamped [1, 2] [4, 5]).2.2.2 h⟩

/-- C7: `get_molecule_identifier("CO") = 5`;
`get_molmass("H2O", 1) = 18.010565`; any molecule name absent from the
inverted identifier dictionary, and any name/isotopologue code absent
from the mass dictionary, makes the corresponding function raise
`KeyError` rather than return a default. -/
theorem molecule_lookup_values :
    get_molecule_identifier "CO" = Except.ok 5 ∧
    get_molmass "H2O" 1 = Except.ok 18.010565 ∧
    (∀ name : String,
        (molecNumToName.map (fun p => (p.2, p.1))).lookup name = none →
        get_molecule_identifier name = Except.error PyErr.keyError) ∧
    (∀ (name : String) (iso : Nat),
        massTable.lookup (name ++ "_" ++ toString iso) = none →
        get_molmass name iso = Except.error PyErr.keyError) := by
  refine ⟨rfl, rfl, ?_, ?_⟩
  · intro name h
    simp [get_molecule_identifier, h]
  · intro name iso h
    simp [get_molmass, h]

/-- Witness for `molecule_lookup_values` at the unknown name `"XYZ"`. -/
theorem molecule_lookup_values_witness :
    get_molecule_identifier "XYZ" = Except.error PyErr.keyError ∧
    get_molmass "XYZ" 1 = Except.error PyErr.keyError :=
  ⟨molecule_lookup_values.2.2.1 "XYZ" (by decide),
   molecule_lookup_values.2.2.2 "XYZ" 1 (by decide)⟩

/-- C8 counterexample: an unknown instrument subband name does NOT
produce a propagated `LookupError` — `get_miri_mrs_wavelengths`
catches the `KeyError` and terminates the process with `sys.exit(1)`
(`utils.py:719-723`). -/
theorem miri_unknown_subband_exits :
    get_miri_mrs_wavelengths "5Z" = Except.error (PyErr.systemExit 1) ∧
    PyErr.systemExit 1 ≠ PyErr.keyError := ⟨rfl, by decide⟩

/-- C8 (amended): unknown molecule/isotopologue combinations in the
global-identifier, molecule-identifier and mass tables raise `KeyError`
propagated to the caller; an unknown instrument subband name is instead
handled locally by terminating the process via `sys.exit(1)`. -/
theorem lookup_error_outcomes (name : String) (iso : Nat) (subband : String)
    (hg : globalTrans.lookup (name ++ "_" ++ toString iso) = none)
    (hmol : (molecNumToName.map (fun p => (p.2, p.1))).lookup name = none)
    (hm : massTable.lookup (name ++ "_" ++ toString iso) = none)
    (hsb : miri_w0.lookup subband = none) :
    get_global_identifier name iso = Except.error PyErr.keyError ∧
    get_molecule_identifier name = Except.error PyErr.keyError ∧
    get_molmass name iso = Except.error PyErr.keyError ∧
    get_miri_mrs_wavelengths subband = Except.error (PyErr.systemExit 1) := by
  refine ⟨?_, ?_, ?_, ?_⟩
  · simp [get_global_identifier, hg]
  · simp [get_molecule_identifier, hmol]
  · simp [get_molmass, hm]
  · simp [get_miri_mrs_wavelengths, hsb]

/-- Witness for `lookup_error_outcomes` at `"XYZ"`, isotopologue 1,
subband `"5Z"`. -/
theorem lookup_error_outcomes_witness :
    get_global_identifier "XYZ" 1 = Except.error PyErr.keyError ∧
    get_molecule_identifier "XYZ" = Except.error PyErr.keyError ∧
    get_molmass "XYZ" 1 = Except.error PyErr.keyError ∧
    get_miri_mrs_wavelengths "5Z" = Except.error (PyErr.systemExit 1) :=
  lookup_error_outcomes "XYZ" 1 "5Z" (by decide) (by decide) (by decide) (by decide)

/-- C10: with both `wavemin` and `wavemax` left at their `None`
defaults, `extract_hitran_ch3p` never returns the (unfiltered) table:
the filter variables `waveminbool`/`wavemaxbool` are unassigned and
their unconditional combination raises `NameError`. -/
theorem extract_hitran_ch3p_defaults_fail (table : List ℚ) :
    extract_hitran_ch3p table none none = Except.error PyErr.nameError ∧
    ∀ out : List ℚ, extract_hitran_ch3p table none none ≠ Except.ok out :=
  ⟨rfl, fun _ h => Except.noConfusion h⟩

lemma zipWith_div_replicate (c : ℚ) (l : List ℚ) :
    List.zipWith (fun w r => w / r) l (List.replicate l.length c) =
      l.map (fun w => w / c) := by
  induction l with
  | nil => rfl
  | cons x xs ih => simp [List.replicate_succ, ih]

/-- C1 counterexample: `wave = [1,2,1]`, `flux = [1,2,3]`, `dv = 100`
meets every validity condition the claim states (equal lengths
`3 ≥ 2`, positive scalar resolution), yet the code raises instead of
returning a flux list on the original grid: the repeated wavelength
makes `dw_min = 0`, `fwhm/dw_min` overflows to `inf`, so
`fwhm_s = sigma_s = inf` and `Gaussian1DKernel(inf)` raises
`OverflowError` (`utils.py:441`). -/
theorem spec_convol_zero_spacing_raises :
    spec_convol gauss1 [1, 2, 1] [1, 2, 3] 100 =
      Except.error PyErr.overflowError := by
  norm_num [spec_convol, convol_core, dw_min_of, dws_of, roll1, listMin, cval]
  rw [if_neg (by decide), if_neg (by decide)]

/-- C1 (amended): for every valid input whose wavelengths are moreover
strictly monotonically increasing (the spec's §3/§4.1 precondition;
equivalently the minimum spacing is nonzero — without it the code
raises from `Gaussian1DKernel` instead of returning), both convolution
functions succeed, the returned flux list has exactly the length of
`wave`, and it is produced by evaluating the convolved resampled flux
at exactly the original wavelengths, in their original order
(`wave.map …`), so the result is reported on the original wavelength
grid. -/
theorem spec_convol_shape (g : ℚ → List ℚ) (wave flux R : List ℚ) (dv : ℚ)
    (h2 : 2 ≤ wave.length) (hmono : List.Chain' (fun a b => a < b) wave)
    (hf : flux.length = wave.length) (hdv : 0 < dv)
    (hR : R.length = wave.length) (hRpos : ∀ r ∈ R, 0 < r) :
    (spec_convol g wave flux dv =
        Except.ok (flux_oldsampling_of g wave flux
          (wave.map (fun w => w / (cval / (dv * 1000))))) ∧
      (flux_oldsampling_of g wave flux
          (wave.map (fun w => w / (cval / (dv * 1000))))).length = wave.length ∧
      flux_oldsampling_of g wave flux (wave.map (fun w => w / (cval / (dv * 1000)))) =
        wave.map (interpPoint
          (wave_constfwhm_of wave (wave.map (fun w => w / (cval / (dv * 1000)))))
          (flux_conv_of g wave flux (wave.map (fun w => w / (cval / (dv * 1000))))))) ∧
    (spec_convol_R g wave flux R =
        Except.ok (flux_oldsampling_of g wave flux
          (List.zipWith (fun w r => w / r) wave R)) ∧
      (flux_oldsampling_of g wave flux
          (List.zipWith (fun w r => w / r) wave R)).length = wave.length ∧
      flux_oldsampling_of g wave flux (List.zipWith (fun w r => w / r) wave R) =
        wave.map (interpPoint
          (wave_constfwhm_of wave (List.zipWith (fun w r => w / r) wave R))
          (flux_conv_of g wave flux (List.zipWith (fun w r => w / r) wave R)))) := by
  have hw : wave ≠ [] := by
    intro h
    rw [h] at h2
    simp at h2
  have hdw : dw_min_of wave ≠ 0 := ne_of_gt (dw_min_of_pos wave h2 hmono)
  refine ⟨⟨?_, ?_, rfl⟩, ?_, ?_, rfl⟩
  · simp [spec_convol, convol_core, hw, hf, hdw]
  · simp [flux_oldsampling_of]
  · cases R with
    | nil =>
      simp only [List.length_nil] at hR
      omega
    | cons r0 R0 =>
      cases R0 with
      | nil =>
        simp only [List.length_cons, List.length_nil] at hR
        omega
      | cons r1 R' =>
        simp [spec_convol_R, convol_core, hw, hf, hR, hdw]
  · simp [flux_oldsampling_of]

/-- Witness for `spec_convol_shape`: `wave = [1,2,3]` (strictly
increasing), `flux = [4,5,6]`, `dv = 1`, `R = [1000,1000,1000]`. -/
theorem spec_convol_shape_witness :
    (flux_oldsampling_of gauss1 [1, 2, 3] [4, 5, 6]
        (([1, 2, 3] : List ℚ).map (fun w => w / (cval / (1 * 1000))))).length = 3 ∧
    (flux_oldsampling_of gauss1 [1, 2, 3] [4, 5, 6]
        (List.zipWith (fun w r => w / r) [1, 2, 3] [1000, 1000, 1000])).length = 3 := by
  have h := spec_convol_shape gauss1 [1, 2, 3] [4, 5, 6] [1000, 1000, 1000] 1
    (by decide) (by norm_num [List.chain'_cons, List.chain'_singleton]) rfl
    (by decide) rfl (by decide)
  exact ⟨h.1.2.1, h.2.2.1⟩

/-- C6: the two entry points compute the same transformation — for any
positive velocity width `dv`, `spec_convol wave flux dv` coincides with
`spec_convol_R wave flux R` for the constant resolving-power array
`R = c/(dv*1e3)` (one entry per wavelength); a single implementation
parameterized over the resolution subsumes both. -/
theorem spec_convol_eq_spec_convol_R (g : ℚ → List ℚ) (wave flux : List ℚ)
    (dv : ℚ) (hdv : 0 < dv) :
    spec_convol g wave flux dv =
      spec_convol_R g wave flux (List.replicate wave.length (cval / (dv * 1000))) := by
  cases wave with
  | nil => simp [spec_convol, spec_convol_R]
  | cons w0 t0 =>
    cases t0 with
    | nil => simp [spec_convol, spec_convol_R, List.replicate_one]
    | cons w1 t =>
      simp [spec_convol, spec_convol_R, List.replicate_succ, zipWith_div_replicate]

/-- Witness for `spec_convol_eq_spec_convol_R` at `wave = [1,2]`,
`flux = [3,4]`, `dv = 1`. -/
theorem spec_convol_eq_spec_convol_R_witness :
    spec_convol gauss3 [1, 2] [3, 4] 1 =
      spec_convol_R gauss3 [1, 2] [3, 4]
        (List.replicate ([1, 2] : List ℚ).length (cval / (1 * 1000))) :=
  spec_convol_eq_spec_convol_R gauss3 [1, 2] [3, 4] 1 (by decide)

lemma cumsum_length (l : List ℚ) : (cumsum l).length = l.length := by
  induction l with
  | nil => rfl
  | cons x xs ih => simp [cumsum, ih]

lemma getD_map_addL (x : ℚ) (l : List ℚ) (i : ℕ) (h : i < l.length) :
    (l.map (fun y => x + y)).getD i 0 = x + l.getD i 0 := by
  induction l generalizing i with
  | nil => simp at h
  | cons a as ih =>
    cases i with
    | zero => simp
    | succ j =>
      have hj : j < as.length := by simpa using h
      simpa using ih j hj

lemma getD_map_addR (x : ℚ) (l : List ℚ) (i : ℕ) (h : i < l.length) :
    (l.map (fun y => y + x)).getD i 0 = l.getD i 0 + x := by
  induction l generalizing i with
  | nil => simp at h
  | cons a as ih =>
    cases i with
    | zero => simp
    | succ j =>
      have hj : j < as.length := by simpa using h
      simpa using ih j hj

lemma cumsum_getD_zero (l : List ℚ) : (cumsum l).getD 0 0 = l.getD 0 0 := by
  cases l <;> simp [cumsum]

lemma cumsum_getD_succ (l : List ℚ) (i : ℕ) (h : i + 1 < l.length) :
    (cumsum l).getD (i + 1) 0 = (cumsum l).getD i 0 + l.getD (i + 1) 0 := by
  induction l generalizing i with
  | nil => simp at h
  | cons x xs ih =>
    cases i with
    | zero =>
      have hx : 0 < xs.length := by simpa using h
      have hcs : 0 < (cumsum xs).length := by
        rw [cumsum_length]; exact hx
      show (x :: (cumsum xs).map (fun y => x + y)).getD (0 + 1) 0 =
        (x :: (cumsum xs).map (fun y => x + y)).getD 0 0 + (x :: xs).getD (0 + 1) 0
      rw [List.getD_cons_succ, List.getD_cons_zero, List.getD_cons_succ,
        getD_map_addL x _ 0 hcs, cumsum_getD_zero]
    | succ j =>
      have hj : j + 1 < xs.length := by simpa using h
      have hj' : j + 1 < (cumsum xs).length := by
        rw [cumsum_length]; exact hj
      have hjlt : j < (cumsum xs).length := Nat.lt_of_succ_lt hj'
      show (x :: (cumsum xs).map (fun y => x + y)).getD (j + 1 + 1) 0 =
        (x :: (cumsum xs).map (fun y => x + y)).getD (j + 1) 0 +
          (x :: xs).getD (j + 1 + 1) 0
      rw [List.getD_cons_succ, List.getD_cons_succ, List.getD_cons_succ,
        getD_map_addL x _ _ hj', getD_map_addL x _ _ hjlt, ih j hj]
      ring

/-- C2 counterexample: with `wave = [1,2,3]` and constant `R = 1000`
(so `fwhm = wave/1000`), the first point of the internally built grid
is `min(wave) + ds[0] = 1 + 1/2000`, not `min(wave) = 1`: `np.cumsum`
starts at `ds[0]`, not at `0`. -/
theorem wave_constfwhm_head_ne_min :
    (wave_constfwhm_of [1, 2, 3]
        (([1, 2, 3] : List ℚ).map (fun w => w / 1000))).headD 0 ≠
      listMin [1, 2, 3] := by
  norm_num [wave_constfwhm_of, ds_of, fwhm_s_of, fwhm_s_pre, dw_min_of,
    dws_of, roll1, listMin, cumsum]

/-- C2 (amended): the internally built grid satisfies
`grid[0] = min(wave) + ds[0]` (not `min(wave)`: `np.cumsum` already
includes `ds[0]` in its first entry) and, as claimed,
`grid[i] = grid[i-1] + ds[i]` for `i ≥ 1`. -/
theorem wave_constfwhm_recurrence (wave fwhm : List ℚ)
    (hw : wave ≠ []) (hl : fwhm.length = wave.length) :
    (wave_constfwhm_of wave fwhm).getD 0 0 =
      listMin wave + (ds_of wave fwhm).getD 0 0 ∧
    ∀ i, i + 1 < (ds_of wave fwhm).length →
      (wave_constfwhm_of wave fwhm).getD (i + 1) 0 =
        (wave_constfwhm_of wave fwhm).getD i 0 + (ds_of wave fwhm).getD (i + 1) 0 := by
  have hds : 0 < (ds_of wave fwhm).length := by
    simp only [ds_of, List.length_map, hl]
    cases wave with
    | nil => exact absurd rfl hw
    | cons a l => simp
  have hcs : ∀ i, i < (ds_of wave fwhm).length →
      i < (cumsum (ds_of wave fwhm)).length := by
    intro i hi
    rwa [cumsum_length]
  constructor
  · rw [wave_constfwhm_of, getD_map_addR _ _ _ (hcs 0 hds), cumsum_getD_zero]
    ring
  · intro i hi
    have hilt : i < (ds_of wave fwhm).length := Nat.lt_of_succ_lt hi
    rw [wave_constfwhm_of, getD_map_addR _ _ _ (hcs _ hi),
      getD_map_addR _ _ _ (hcs _ hilt), cumsum_getD_succ _ _ hi]
    ring

/-- Witness for `wave_constfwhm_recurrence` at `wave = [1,2,3]`,
`fwhm = wave/1000`. -/
theorem wave_constfwhm_recurrence_witness :
    (wave_constfwhm_of [1, 2, 3]
        (([1, 2, 3] : List ℚ).map (fun w => w / 1000))).getD 0 0 =
      listMin [1, 2, 3] +
        (ds_of [1, 2, 3] (([1, 2, 3] : List ℚ).map (fun w => w / 1000))).getD 0 0 :=
  (wave_constfwhm_recurrence [1, 2, 3]
    (([1, 2, 3] : List ℚ).map (fun w => w / 1000)) (by decide) (by simp)).1

set_option maxHeartbeats 2000000 in
lemma boundary_fill_eval₁ :
    spec_convol gauss3 [1, 2, 3, 4] [1, 1, 1, 1] 299.792458 =
      Except.ok [3/4, 3/4, 3/4, 3/4] := by
  norm_num [spec_convol, convol_core, flux_oldsampling_of, flux_conv_of,
    flux_constfwhm_of, wave_constfwhm_of, ds_of, fwhm_s_of, fwhm_s_pre,
    dw_min_of, dws_of, roll1, listMin, cumsum, cval, sigma_s_of, gauss3,
    convolve_fill, convolveWith, convolveAux, kernelDot, getFill, interpPoint]
  rw [if_neg (by decide), if_neg (by decide)]

set_option maxHeartbeats 2000000 in
lemma boundary_fill_eval₂ :
    spec_convol_R gauss3 [1, 2, 3, 4] [1, 1, 1, 1] [1000, 1000, 1000, 1000] =
      Except.ok [3/4, 3/4, 3/4, 3/4] := by
  norm_num [spec_convol_R, convol_core, flux_oldsampling_of, flux_conv_of,
    flux_constfwhm_of, wave_constfwhm_of, ds_of, fwhm_s_of, fwhm_s_pre,
    dw_min_of, dws_of, roll1, listMin, cumsum, sigma_s_of, gauss3,
    convolve_fill, convolveWith, convolveAux, kernelDot, getFill, interpPoint]
  rw [if_neg (by decide), if_neg (by decide)]

set_option maxHeartbeats 2000000 in
lemma boundary_fill_eval₃ :
    convolve_fill [1/4, 1/2, 1/4]
      (flux_constfwhm_of [1, 2, 3, 4] [1, 1, 1, 1]
        (([1, 2, 3, 4] : List ℚ).map (fun w => w / 1000))) = [3/4, 1, 1, 3/4] := by
  norm_num [flux_constfwhm_of, wave_constfwhm_of, ds_of, fwhm_s_of, fwhm_s_pre,
    dw_min_of, dws_of, roll1, listMin, cumsum, convolve_fill, convolveWith,
    convolveAux, kernelDot, getFill, interpPoint]

set_option maxHeartbeats 2000000 in
lemma boundary_fill_eval₄ :
    convolve_extend_spec [1/4, 1/2, 1/4]
      (flux_constfwhm_of [1, 2, 3, 4] [1, 1, 1, 1]
        (([1, 2, 3, 4] : List ℚ).map (fun w => w / 1000))) = [1, 1, 1, 1] := by
  norm_num [flux_constfwhm_of, wave_constfwhm_of, ds_of, fwhm_s_of, fwhm_s_pre,
    dw_min_of, dws_of, roll1, listMin, cumsum, convolve_extend_spec,
    convolveWith, convolveAux, kernelDot, getExtend, interpPoint]

/-- C4: the code's convolution step does NOT use "extend" boundary
handling.  `convolve_fft` is called with `boundary='fill'`
(`utils.py:447/501`), i.e. zero padding, although the code's own
comment (`utils.py:445-446`) says `boundary='extend'`.  On the constant
flux `[1,1,1,1]` (with `R = 1000`, a normalized 3-tap kernel standing
in for the Gaussian) both entry points return `3/4` everywhere — the
zero-padding artifact pulled in from the endpoints — whereas the
extend-semantics convolution of the same resampled flux is exactly
`[1,1,1,1]`. -/
theorem boundary_fill_not_extend :
    spec_convol gauss3 [1, 2, 3, 4] [1, 1, 1, 1] 299.792458 =
      Except.ok [3/4, 3/4, 3/4, 3/4] ∧
    spec_convol_R gauss3 [1, 2, 3, 4] [1, 1, 1, 1] [1000, 1000, 1000, 1000] =
      Except.ok [3/4, 3/4, 3/4, 3/4] ∧
    convolve_fill [1/4, 1/2, 1/4]
      (flux_constfwhm_of [1, 2, 3, 4] [1, 1, 1, 1]
        (([1, 2, 3, 4] : List ℚ).map (fun w => w / 1000))) = [3/4, 1, 1, 3/4] ∧
    convolve_extend_spec [1/4, 1/2, 1/4]
      (flux_constfwhm_of [1, 2, 3, 4] [1, 1, 1, 1]
        (([1, 2, 3, 4] : List ℚ).map (fun w => w / 1000))) = [1, 1, 1, 1] ∧
    (3/4 : ℚ) ≠ 1 := by
  refine ⟨boundary_fill_eval₁, boundary_fill_eval₂, boundary_fill_eval₃,
    boundary_fill_eval₄, by norm_num⟩

/-- C9: the convolution core performs no input validation.  On the
non-monotonic wavelength array `[1,3,2]` (a degenerate input the claim
says must be rejected with a descriptive error) `spec_convol` silently
returns a finite 3-element result instead of failing. -/
theorem spec_convol_accepts_nonmonotonic :
    spec_convol gauss1 [1, 3, 2] [1, 2, 3] 100 =
      Except.ok [149908729/149896229, 149971229/149896229, 149971229/149896229] := by
  norm_num [spec_convol, convol_core, flux_oldsampling_of, flux_conv_of,
    flux_constfwhm_of, wave_constfwhm_of, ds_of, fwhm_s_of, fwhm_s_pre,
    dw_min_of, dws_of, roll1, listMin, cumsum, cval, sigma_s_of, gauss1,
    convolve_fill, convolveWith, convolveAux, kernelDot, getFill, interpPoint]
  rw [if_neg (by decide), if_neg (by decide)]

/-- C5: for every strictly increasing wavelength list with at least two
points, the reference minimum spacing computed over circular
differences (`np.roll`, including the wrap-around term
`|wave[0] - wave[-1]|`) equals the minimum over consecutive differences
only: the wrap-around term never becomes the minimum. -/
theorem dw_min_wrap_harmless (wave : List ℚ) (h2 : 2 ≤ wave.length)
    (hmono : List.Chain' (· < ·) wave) :
    dw_min_of wave = dw_min_spec wave := by
  match wave, h2 with
  | w :: w1 :: rest, _ =>
    have hpw : List.Pairwise (· < ·) (w :: w1 :: rest) :=
      List.chain'_iff_pairwise.mp hmono
    have hww1 : w < w1 :=
      List.rel_of_pairwise_cons hpw (List.mem_cons_self w1 rest)
    have hne : (w1 :: rest) ≠ [] := List.cons_ne_nil w1 rest
    set z := (w :: w1 :: rest).getLast (List.cons_ne_nil w (w1 :: rest)) with hz
    have hzmem : z ∈ w1 :: rest := by
      rw [hz, List.getLast_cons hne]
      exact List.getLast_mem hne
    have hw1z : w1 ≤ z := by
      rcases List.mem_cons.mp hzmem with h | h
      · exact le_of_eq h.symm
      · exact le_of_lt (List.rel_of_pairwise_cons hpw.of_cons h)
    have hwz : w ≤ z := le_of_lt (lt_of_lt_of_le hww1 hw1z)
    set cds := List.zipWith (fun a b => |a - b|) (w1 :: rest) (w :: w1 :: rest)
      with hcds
    have hcds_ne : cds ≠ [] := by
      rw [hcds, List.zipWith_cons_cons]
      exact List.cons_ne_nil _ _
    have hhead : |w1 - w| ∈ cds := by
      rw [hcds, List.zipWith_cons_cons]
      exact List.mem_cons_self _ _
    have hdws := dws_of_cons w (w1 :: rest) hne
    rw [← hz, ← hcds] at hdws
    have hof : dw_min_of (w :: w1 :: rest) = listMin (|w - z| :: cds) := by
      rw [dw_min_of, hdws]
    have hspec : dw_min_spec (w :: w1 :: rest) = listMin cds := rfl
    rw [hof, hspec]
    apply le_antisymm
    · exact listMin_le_mem _ _ (List.mem_cons_of_mem _ (listMin_mem cds hcds_ne))
    · rcases List.mem_cons.mp (listMin_mem (|w - z| :: cds)
        (List.cons_ne_nil _ _)) with h | h
      · calc listMin cds ≤ |w1 - w| := listMin_le_mem _ _ hhead
          _ = w1 - w := abs_of_nonneg (sub_nonneg.mpr (le_of_lt hww1))
          _ ≤ z - w := by linarith
          _ = |w - z| := by rw [abs_sub_comm, abs_of_nonneg (sub_nonneg.mpr hwz)]
          _ = listMin (|w - z| :: cds) := h.symm
      · exact listMin_le_mem _ _ h

/-- Witness for `dw_min_wrap_harmless` at the strictly increasing list
`[1, 2, 4]`. -/
theorem dw_min_wrap_harmless_witness :
    List.Chain' (fun a b => a < b) ([1, 2, 4] : List ℚ) ∧
    dw_min_of [1, 2, 4] = dw_min_spec [1, 2, 4] :=
  ⟨by norm_num [List.chain'_cons, List.chain'_singleton],
   dw_min_wrap_harmless [1, 2, 4] (by decide)
     (by norm_num [List.chain'_cons, List.chain'_singleton])⟩
